import Mathlib

/-! Shallow embedding of the tool-selection-and-response-synthesis engine of
the dcchat repository (modules/zabbix_assistant.py, modules/zabbix_tools.py).
Python strings are Lean strings; Python ints are `Int`; a Python expression
that may raise is embedded as an `Except String` value whose error carries the
exception text. The opaque collaborators (the Zabbix API client and the
language-model client) appear as explicit parameters of the embedded
functions, so every definition below is executable. -/

/-- Roles of chat messages (SystemMessage / HumanMessage / AIMessage in the
source). -/
inductive Role
  | system
  | user
  | assistant
deriving DecidableEq, Repr

/-- A chat message: a role tag plus its text content. -/
structure Msg where
  role : Role
  content : String
deriving DecidableEq, Repr

/-- Boolean test that the first list is a leading segment of the second. -/
def leadsB : List Char → List Char → Bool
  | [], _ => true
  | _ :: _, [] => false
  | a :: as, b :: bs => a == b && leadsB as bs

/-- Boolean substring test on character lists (Python `needle in hay`). -/
def substrB (needle : List Char) : List Char → Bool
  | [] => leadsB needle []
  | c :: rest => leadsB needle (c :: rest) || substrB needle rest

/-- Python `str.lower()` restricted to its ASCII behavior, which is all the
embedded code relies on. -/
def strLower (s : String) : String :=
  String.mk (s.data.map Char.toLower)

/-- Python membership `needle in hay` on strings. -/
def pyIn (needle hay : String) : Bool :=
  substrB needle.data hay.data

/-- Value of a decimal numeral (Python `int` applied to a run of digits). -/
def digitsToNat (ds : List Char) : Nat :=
  ds.foldl (fun acc c => acc * 10 + (c.toNat - '0'.toNat)) 0

/-- Membership in the Python regex class `\s`. -/
def pySpace (c : Char) : Bool :=
  c == ' ' || c == '\t' || c == '\n' || c == '\r' || c == '\x0b' || c == '\x0c'

/-- Test whether one of the regex alternatives `hosts?|triggers?|items?`
matches at the head of the list. The optional trailing letter cannot affect
success because the alternative ends the pattern. -/
def nounAt (l : List Char) : Bool :=
  leadsB "host".data l || leadsB "trigger".data l || leadsB "item".data l

/-- Leftmost match of the regex `(\d+)\s*(hosts?|triggers?|items?)`
(the `re.search` in `_extract_limit`, zabbix_assistant.py line 288). At a
given start position only the maximal digit run can satisfy the pattern,
because a digit is neither whitespace nor the first letter of one of the
nouns; so the scan takes the maximal run of digits, skips whitespace and asks
for a noun, and otherwise advances the start position by one character, which
is exactly what `re.search` does. -/
def limitScan : List Char → Option Nat
  | [] => none
  | c :: rest =>
    if c.isDigit then
      let ds := (c :: rest).takeWhile Char.isDigit
      let after := ((c :: rest).dropWhile Char.isDigit).dropWhile pySpace
      if nounAt after then some (digitsToNat ds) else limitScan rest
    else limitScan rest

/-- ZabbixAssistant._extract_limit (zabbix_assistant.py line 287): the numeral
of the first regex match on the lowercased query, or None. -/
def _extract_limit (query : String) : Option Int :=
  (limitScan (strLower query).data).map fun n => (n : Int)

/-- The ordered severity vocabulary of `_extract_severity`
(zabbix_assistant.py line 292): display form paired with the filter form. -/
def severity_map : List (String × String) :=
  [("not classified", "not_classified"),
   ("information", "information"),
   ("warning", "warning"),
   ("average", "average"),
   ("high", "high"),
   ("disaster", "disaster")]

/-- The `for severity, mapped_severity in severity_map.items()` loop of
`_extract_severity`: return the mapped form of the first vocabulary entry that
occurs in the query. -/
def severityLoop (query : String) : List (String × String) → Option (List String)
  | [] => none
  | sv :: rest => if pyIn sv.1 query then some [sv.2] else severityLoop query rest

/-- ZabbixAssistant._extract_severity (zabbix_assistant.py line 291). -/
def _extract_severity (query : String) : Option (List String) :=
  severityLoop (strLower query) severity_map

/-- ZabbixAssistant._trim_conversation_messages (zabbix_assistant.py line 98).
The budget-aware `trim_messages` pipeline is the pluggable collaborator
`trimmer`; when it raises, the fallback is Python `list(messages)[-5:]`,
embedded as dropping all but the last five entries. -/
def _trim_conversation_messages (trimmer : List Msg → Except String (List Msg))
    (messages : List Msg) : List Msg :=
  match trimmer messages with
  | .ok trimmed => trimmed
  | .error _ => messages.drop (messages.length - 5)

/-- Result dictionary of ZabbixDataHandler.paginate_response. -/
structure PageResult where
  content : String
  total_items : Int
  total_pages : Int
  current_page : Int
  page_size : Int
deriving DecidableEq, Repr

/-- Normalization of one (possibly negative) Python slice endpoint against a
list length: a negative endpoint counts from the end, and both are clamped to
the interval from 0 to the length. -/
def pyIndex (len : Nat) (i : Int) : Nat :=
  if i < 0 then ((len : Int) + i).toNat else min len i.toNat

/-- Python list slicing `data[a:b]` with step 1. -/
def pySlice (l : List α) (a b : Int) : List α :=
  (l.take (pyIndex l.length b)).drop (pyIndex l.length a)

/-- The `paginated_data` slice of paginate_response:
`data[(page - 1) * page_size : (page - 1) * page_size + page_size]`
(zabbix_tools.py lines 21 to 24). -/
def pageSlice (data : List α) (page page_size : Int) : List α :=
  pySlice data ((page - 1) * page_size) ((page - 1) * page_size + page_size)

/-- ZabbixDataHandler.paginate_response (zabbix_tools.py line 9). A zero
`page_size` raises ZeroDivisionError in the `total_pages` computation; Python
`//` on ints is floor division, `Int.fdiv`. A missing formatter defaults to a
newline join of `str(item)`. -/
def paginate_response [ToString α] (data : List α) (page page_size : Int)
    (formatter : Option (List α → String)) : Except String PageResult :=
  let total_items : Int := data.length
  if page_size = 0 then
    .error "ZeroDivisionError: integer division or modulo by zero"
  else
    let total_pages := (total_items + page_size - 1).fdiv page_size
    let paginated_data := pageSlice data page page_size
    let formatted_content :=
      match formatter with
      | some f => f paginated_data
      | none => String.intercalate "\n" (paginated_data.map toString)
    .ok ⟨formatted_content, total_items, total_pages, page, page_size⟩

/-- ZabbixToolFunctions._paginate_and_format (zabbix_tools.py line 74):
paginate with the capability formatter and append the pagination footer. -/
def _paginate_and_format [ToString α] (data : List α) (page page_size : Int)
    (formatter : List α → String) : Except String String :=
  (paginate_response data page page_size (some formatter)).map fun result =>
    result.content ++ "\n\nPage " ++ toString result.current_page ++ " of " ++
      toString result.total_pages ++ " (Total Items: " ++
      toString result.total_items ++ ")"

/-- A host record as returned by `zabbix.host.get`: the fields the host
formatters read. The `host` and `description` keys are read through
`dict.get` with defaults, so they are optional. -/
structure HostRec where
  hostid : String
  name : String
  status : String
  host : Option String
  description : Option String
deriving DecidableEq, Repr

instance : ToString HostRec := ⟨fun h => reprStr h⟩

/-- A trigger record: the fields `_trigger_formatter` reads. `priority` is the
integer value of the `priority` key and `lastchange` the optional Unix
timestamp (the source converts both with `int`; well-formed API records are
assumed, as the formatter runs inside the same `try` as the API call). -/
structure TriggerRec where
  triggerid : String
  description : String
  priority : Int
  status : String
  value : String
  lastchange : Option Int
deriving DecidableEq, Repr

instance : ToString TriggerRec := ⟨fun t => reprStr t⟩

/-- A user record: the fields the `get_users` formatter reads through
`dict.get`. A field that is absent or empty (both falsy in the source) is
`none`. -/
structure UserRec where
  userid : Option String
  username : Option String
  alias_ : Option String
  name : Option String
  surname : Option String
deriving DecidableEq, Repr

instance : ToString UserRec := ⟨fun u => reprStr u⟩

/-- Python `str.strip()` on the whitespace characters used here. -/
def stripSpaces (s : String) : String :=
  String.mk (((s.data.dropWhile pySpace).reverse.dropWhile pySpace).reverse)

namespace ZabbixToolFunctions

/-- ZabbixToolFunctions._host_formatter (zabbix_tools.py line 64). -/
def _host_formatter (host_list : List HostRec) (include_details : Bool) : String :=
  String.intercalate "\n\n" <| host_list.map fun host =>
    let status := if host.status == "0" then "Enabled" else "Disabled"
    let host_info :=
      "Host: " ++ host.name ++ " (ID: " ++ host.hostid ++ ", Status: " ++ status ++ ")"
    if include_details then
      host_info ++ "\n  Hostname: " ++ host.host.getD "N/A" ++
        "\n  Description: " ++ host.description.getD "No description"
    else host_info

/-- ZabbixToolFunctions.get_hosts (zabbix_tools.py line 48). The
`zabbix.host.get` call is the opaque collaborator: `api` is its outcome,
records or the text of a raised exception. The `try` block also covers
pagination and formatting, so their failures are converted to the same error
text. -/
def get_hosts (api : Except String (List HostRec)) (page page_size : Int)
    (include_details : Bool) : String :=
  match api with
  | .error e => "Error retrieving hosts: " ++ e
  | .ok hosts =>
    match _paginate_and_format hosts page page_size
        (fun l => _host_formatter l include_details) with
    | .ok s => s
    | .error e => "Error retrieving hosts: " ++ e

/-- Priority names used by `_trigger_formatter` (zabbix_tools.py line 160). -/
def priorityName (p : Int) : String :=
  if p = 0 then "Not Classified"
  else if p = 1 then "Information"
  else if p = 2 then "Warning"
  else if p = 3 then "Average"
  else if p = 4 then "High"
  else if p = 5 then "Disaster"
  else "Unknown"

/-- ZabbixToolFunctions._trigger_formatter (zabbix_tools.py line 157).
`fmtTime` stands for the timezone-dependent rendering
`datetime.fromtimestamp(...).strftime(...)` of the wall clock collaborator. -/
def _trigger_formatter (fmtTime : Int → String) (trigger_list : List TriggerRec) : String :=
  String.intercalate "\n\n" <| trigger_list.map fun trigger =>
    let priority := priorityName trigger.priority
    let status := if trigger.status == "0" then "Enabled" else "Disabled"
    let value := if trigger.value == "1" then "Problem" else "OK"
    let base :=
      "Trigger: " ++ trigger.description ++ "\n  ID: " ++ trigger.triggerid ++
        "\n  Priority: " ++ priority ++ "\n  Status: " ++ status ++
        "\n  Current State: " ++ value
    match trigger.lastchange with
    | some ts => base ++ "\n  Last Changed: " ++ fmtTime ts
    | none => base

/-- A priority filter entry sent to `zabbix.trigger.get`: the severity map of
`get_triggers` (zabbix_tools.py line 138) turns a known severity name into its
number and passes an unknown name through unchanged. -/
inductive PriorityFilter
  | num (n : Int)
  | raw (s : String)
deriving DecidableEq, Repr

/-- The `severity_map.get(sev.lower(), sev)` lookup of `get_triggers`. -/
def trigger_severity_map (sev : String) : PriorityFilter :=
  let s := strLower sev
  if s = "not_classified" then .num 0
  else if s = "information" then .num 1
  else if s = "warning" then .num 2
  else if s = "average" then .num 3
  else if s = "high" then .num 4
  else if s = "disaster" then .num 5
  else .raw sev

/-- The parameter list of ZabbixToolFunctions.get_triggers
(zabbix_tools.py line 130), used to check keyword bindings at call sites. -/
def get_triggers_params : List String := ["page", "page_size", "severity_filter"]

/-- ZabbixToolFunctions.get_triggers (zabbix_tools.py line 130): `api` is the
outcome of `zabbix.trigger.get` as a function of the priority filter built
from `severity_filter` (`none` when the filter argument is `None` or an empty
list, both falsy in `if severity_filter:`). -/
def get_triggers (api : Option (List PriorityFilter) → Except String (List TriggerRec))
    (fmtTime : Int → String) (page page_size : Int)
    (severity_filter : Option (List String)) : String :=
  let filter : Option (List PriorityFilter) :=
    match severity_filter with
    | some sevs => if sevs.isEmpty then none else some (sevs.map trigger_severity_map)
    | none => none
  match api filter with
  | .error e => "Error retrieving triggers: " ++ e
  | .ok triggers =>
    match _paginate_and_format triggers page page_size (_trigger_formatter fmtTime) with
    | .ok s => s
    | .error e => "Error retrieving triggers: " ++ e

/-- Text returned by `get_users` when every retrieval attempt yields no users
(zabbix_tools.py line 646). -/
def noUsersText : String :=
  "No users could be retrieved from Zabbix. Please check your API configuration."

/-- ZabbixToolFunctions.get_users (zabbix_tools.py line 613). The method tries
five parameter shapes against `zabbix.user.get`, and an inner
`except ... continue` swallows the failure of each attempt; the client
behavior is one outcome `api` shared by the attempts, which differ only in the
output fields they request. An API failure therefore falls through the loop to
the no-users text, and the outer `except` branch
(`"Error retrieving users: ..."`) is unreachable from an API failure. -/
def get_users (api : Except String (List UserRec)) : String :=
  match api with
  | .error _ => noUsersText
  | .ok [] => noUsersText
  | .ok users =>
    "Users in Zabbix:\n" ++ String.intercalate "\n\n" (users.map fun user =>
      let username := user.username.getD (user.alias_.getD "N/A")
      let user_info := "User ID: " ++ user.userid.getD "N/A" ++ "\n  Username: " ++ username
      if user.name.isSome || user.surname.isSome then
        user_info ++ "\n  Name: " ++
          stripSpaces (user.name.getD "" ++ " " ++ user.surname.getD "")
      else user_info)

/-- ZabbixToolFunctions.get_zabbix_status (zabbix_tools.py line 970). The
status table assembly from the API outcome is opaque here; the claims touch
only its `except` branch, which returns a fixed text with no cause
(zabbix_tools.py line 1011). -/
def get_zabbix_status (api : Except String String) : String :=
  match api with
  | .error _ => "Error retrieving Zabbix status."
  | .ok rendered => rendered

end ZabbixToolFunctions

/-- The `except` branch of each ZabbixToolFunctions retrieval method: the text
the method returns when its body raises, and in particular when the underlying
API call raises, transcribed method by method from zabbix_tools.py. The
methods whose message interpolates an identifier argument use `arg` for it.
For `get_users` the recorded text is the one an API failure actually produces:
the inner `except ... continue` swallows every attempt and the method falls
through to the no-users text (see ZabbixToolFunctions.get_users). -/
def methodApiFailureText (arg : String) : List (String × (String → String)) :=
  [("get_hosts", fun e => "Error retrieving hosts: " ++ e),
   ("get_items", fun e => "Error retrieving items: " ++ e),
   ("get_triggers", fun e => "Error retrieving triggers: " ++ e),
   ("get_host_status", fun e => "Error retrieving host statuses: " ++ e),
   ("get_events", fun e => "Error retrieving events: " ++ e),
   ("get_item_values", fun e => "Error retrieving item values: " ++ e),
   ("get_host_inventory", fun e => "Error retrieving host inventory: " ++ e),
   ("get_host_alerts", fun e => "Error retrieving host alerts: " ++ e),
   ("get_application_items", fun e => "Error retrieving application items: " ++ e),
   ("get_alert_history", fun e => "Error retrieving alert history: " ++ e),
   ("get_system_performance", fun e => "Error retrieving system performance: " ++ e),
   ("get_trigger_performance", fun e => "Error retrieving trigger performance: " ++ e),
   ("get_graph_data", fun e => "Error retrieving graph data: " ++ e),
   ("get_trend_data", fun e => "Error retrieving trend data: " ++ e),
   ("get_metrics_by_host", fun e => "Error retrieving metrics for host " ++ arg ++ ": " ++ e),
   ("get_zabbix_performance_data", fun e => "Error retrieving Zabbix performance data: " ++ e),
   ("get_db_performance", fun e => "Error retrieving database performance metrics: " ++ e),
   ("get_network_performance", fun e => "Error retrieving network performance data: " ++ e),
   ("get_proxy_performance", fun e => "Error retrieving proxy performance data: " ++ e),
   ("get_sla_data", fun e => "Error retrieving SLA data for SLA ID " ++ arg ++ ": " ++ e),
   ("get_users", fun _ => ZabbixToolFunctions.noUsersText),
   ("get_user_groups", fun e => "Error retrieving user groups: " ++ e),
   ("get_user_roles", fun e => "Error retrieving user roles: " ++ e),
   ("get_custom_item", fun e => "Error retrieving custom item for key \x27" ++ arg ++ "\x27: " ++ e),
   ("get_items_by_host_group", fun e => "Error retrieving items by host group " ++ arg ++ ": " ++ e),
   ("get_host_by_name", fun e => "Error retrieving host by name \x27" ++ arg ++ "\x27: " ++ e),
   ("get_trigger_by_expression", fun e => "Error retrieving trigger by expression \x27" ++ arg ++ "\x27: " ++ e),
   ("get_dependencies_by_trigger", fun e => "Error retrieving dependencies for trigger ID \x27" ++ arg ++ "\x27: " ++ e),
   ("get_screens", fun e => "Error retrieving screens: " ++ e),
   ("get_graphs_by_host", fun e => "Error retrieving graphs for host ID \x27" ++ arg ++ "\x27: " ++ e),
   ("get_zabbix_api_limits", fun e => "Error retrieving Zabbix API limits: " ++ e),
   ("get_scheduled_tasks", fun e => "Error retrieving scheduled tasks: " ++ e),
   ("get_host_maintenance", fun e => "Error retrieving maintenance for host ID \x27" ++ arg ++ "\x27: " ++ e),
   ("get_maintenance_periods", fun e => "Error retrieving maintenance periods: " ++ e),
   ("get_automated_tasks", fun e => "Error retrieving automated tasks: " ++ e),
   ("get_zabbix_task_status", fun e => "Error retrieving task status for task ID \x27" ++ arg ++ "\x27: " ++ e),
   ("get_notification_settings", fun e => "Error retrieving notification settings: " ++ e),
   ("get_zabbix_status", fun _ => "Error retrieving Zabbix status.")]

/-- The keyword-argument shapes `_run_tool` uses for its two parameterized
tools, plus the zero-argument call used for every other capability
(zabbix_assistant.py line 264). -/
inductive ToolArgs
  | noArgs
  | hostArgs (limit : Option Int)
  | triggerArgs (limit : Option Int) (severity : Option (List String))

/-- A registered langchain Tool: display name, description, bound function. -/
structure RTool where
  name : String
  description : String
  func : ToolArgs → Except String String

/-- Behavior of the external collaborators during one turn: the outcomes of
the Zabbix API calls behind the capabilities the claims evaluate, the
timestamp renderer, and, keyed by tool name, the bodies of the capabilities
whose internals no claim touches (their wrappers are plain delegations to the
corresponding method). -/
structure ZApiBehavior where
  hostGet : Except String (List HostRec)
  triggerGet : Option (List ZabbixToolFunctions.PriorityFilter) → Except String (List TriggerRec)
  userGet : Except String (List UserRec)
  statusGet : Except String String
  fmtTime : Int → String
  other : String → ToolArgs → Except String String

/-- Python `limit or 50` (zabbix_tools.py line 1020): `None` and `0` are both
falsy. -/
def pyOrFifty : Option Int → Int
  | none => 50
  | some n => if n = 0 then 50 else n

/-- Registry wrapper `get_hosts(limit=None)` (zabbix_tools.py line 1019):
forwards `page_size=limit or 50` to the method; `page_size` is among the
method parameters, so the keyword binds. Calling this one-parameter wrapper
with the trigger keyword shape would not bind. -/
def wrapper_get_hosts (api : ZApiBehavior) : ToolArgs → Except String String
  | .hostArgs limit => .ok (ZabbixToolFunctions.get_hosts api.hostGet 1 (pyOrFifty limit) true)
  | .noArgs => .ok (ZabbixToolFunctions.get_hosts api.hostGet 1 50 true)
  | .triggerArgs _ _ => .error "TypeError: get_hosts() got an unexpected keyword argument \x27severity\x27"

/-- Registry wrapper `get_triggers(limit=None, severity=None)`
(zabbix_tools.py line 1025). Its body forwards the keywords `limit` and
`severity_filter` to ZabbixToolFunctions.get_triggers; the binding of those
keywords is checked against that method parameter list, and when a keyword is
not among the parameters the call raises TypeError. The first branch is the
value a successful binding would produce with the method defaults for the
unbound parameters. -/
def wrapper_get_triggers (api : ZApiBehavior) (_limit : Option Int)
    (severity : Option (List String)) : Except String String :=
  if (["limit", "severity_filter"].all fun k => ZabbixToolFunctions.get_triggers_params.contains k) then
    .ok (ZabbixToolFunctions.get_triggers api.triggerGet api.fmtTime 1 50 severity)
  else .error "TypeError: get_triggers() got an unexpected keyword argument \x27limit\x27"

/-- The Get Triggers tool function over the `_run_tool` argument shapes; a
zero-argument call runs the same body with the wrapper defaults. The `limit`
value is bound by the wrapper and then discarded by the failing inner keyword
binding, so it does not appear on the right-hand sides. -/
def wrapper_get_triggers_tool (api : ZApiBehavior) : ToolArgs → Except String String
  | .triggerArgs limit severity => wrapper_get_triggers api limit severity
  | .noArgs => wrapper_get_triggers api none none
  | .hostArgs limit => wrapper_get_triggers api limit none

/-- Registry wrapper `get_users()` (zabbix_tools.py line 1073). -/
def wrapper_get_users (api : ZApiBehavior) : ToolArgs → Except String String
  | .noArgs => .ok (ZabbixToolFunctions.get_users api.userGet)
  | _ => .error "TypeError: get_users() got an unexpected keyword argument"

/-- Registry wrapper `get_zabbix_status()` (zabbix_tools.py line 1107),
registered under the name "Get System Performance" as the final entry. -/
def wrapper_get_zabbix_status (api : ZApiBehavior) : ToolArgs → Except String String
  | .noArgs => .ok (ZabbixToolFunctions.get_zabbix_status api.statusGet)
  | _ => .error "TypeError: get_zabbix_status() got an unexpected keyword argument"

/-- Registry wrapper `get_hosts_limit` (zabbix_tools.py line 1023): its body
calls `zabbix_tools.get_hosts_limit`, a method that does not exist on
ZabbixToolFunctions, so every invocation raises AttributeError. -/
def wrapper_get_hosts_limit : ToolArgs → Except String String :=
  fun _ => .error "AttributeError: ZabbixToolFunctions object has no attribute get_hosts_limit"

/-- Registry wrapper `get_event_history` (zabbix_tools.py line 1049): the
method `zabbix_tools.get_event_history` does not exist either. -/
def wrapper_get_event_history : ToolArgs → Except String String :=
  fun _ => .error "AttributeError: ZabbixToolFunctions object has no attribute get_event_history"

/-- initialize_zabbix_tools (zabbix_tools.py line 1013): the full registry in
registration order, names and descriptions verbatim. The name
"Get System Performance" is registered twice: once for the method
get_system_performance and again, as the final entry, for the method
get_zabbix_status. -/
def initialize_zabbix_tools (api : ZApiBehavior) : List RTool :=
  [⟨"Get Hosts", "Retrieve a list of hosts.", wrapper_get_hosts api⟩,
   ⟨"Get Hosts Limit", "Retrieve a limited number of hosts with pagination.", wrapper_get_hosts_limit⟩,
   ⟨"Get Items", "Retrieve a list of items.", api.other "Get Items"⟩,
   ⟨"Get Triggers", "Retrieve triggers with optional limit and severity filtering.", wrapper_get_triggers_tool api⟩,
   ⟨"Get Events", "Retrieve events.", api.other "Get Events"⟩,
   ⟨"Get Host Status", "Get host statuses.", api.other "Get Host Status"⟩,
   ⟨"Get Item Values", "Get item values.", api.other "Get Item Values"⟩,
   ⟨"Get Host Inventory", "Get host inventory.", api.other "Get Host Inventory"⟩,
   ⟨"Get Host Alerts", "Get host alerts.", api.other "Get Host Alerts"⟩,
   ⟨"Get Application Items", "Get application items.", api.other "Get Application Items"⟩,
   ⟨"Get Item by Key", "Retrieve item using key.", api.other "Get Item by Key"⟩,
   ⟨"Get Event History", "Get event history.", wrapper_get_event_history⟩,
   ⟨"Get Alert History", "Get alert history.", api.other "Get Alert History"⟩,
   ⟨"Get System Performance", "Get system performance.", api.other "Get System Performance"⟩,
   ⟨"Get Trigger Performance", "Get trigger performance.", api.other "Get Trigger Performance"⟩,
   ⟨"Get Graph Data", "Get graph data.", api.other "Get Graph Data"⟩,
   ⟨"Get Trend Data", "Get trend data.", api.other "Get Trend Data"⟩,
   ⟨"Get Metrics by Host", "Get metrics by host.", api.other "Get Metrics by Host"⟩,
   ⟨"Get Zabbix Performance Data", "Get Zabbix performance data.", api.other "Get Zabbix Performance Data"⟩,
   ⟨"Get DB Performance", "Get database performance.", api.other "Get DB Performance"⟩,
   ⟨"Get Network Performance", "Get network performance.", api.other "Get Network Performance"⟩,
   ⟨"Get Proxy Performance", "Get proxy performance.", api.other "Get Proxy Performance"⟩,
   ⟨"Get SLA Data", "Get SLA data.", api.other "Get SLA Data"⟩,
   ⟨"Get Users", "Retrieve a list of users from Zabbix.", wrapper_get_users api⟩,
   ⟨"Get User Groups", "Get user groups.", api.other "Get User Groups"⟩,
   ⟨"Get User Roles", "Get user roles.", api.other "Get User Roles"⟩,
   ⟨"Get Custom Item", "Get custom item by key.", api.other "Get Custom Item"⟩,
   ⟨"Get Items by Host Group", "Get items by host group.", api.other "Get Items by Host Group"⟩,
   ⟨"Get Host by Name", "Get host by name.", api.other "Get Host by Name"⟩,
   ⟨"Get Trigger by Expression", "Get trigger by expression.", api.other "Get Trigger by Expression"⟩,
   ⟨"Get Dependencies by Trigger", "Get dependencies.", api.other "Get Dependencies by Trigger"⟩,
   ⟨"Get Screens", "Get all screens.", api.other "Get Screens"⟩,
   ⟨"Get Graphs by Host", "Get graphs for host.", api.other "Get Graphs by Host"⟩,
   ⟨"Get Zabbix API Limits", "Get API limits.", api.other "Get Zabbix API Limits"⟩,
   ⟨"Get Scheduled Tasks", "Get scheduled tasks.", api.other "Get Scheduled Tasks"⟩,
   ⟨"Get Host Maintenance", "Get host maintenance.", api.other "Get Host Maintenance"⟩,
   ⟨"Get Maintenance Periods", "Get maintenance periods.", api.other "Get Maintenance Periods"⟩,
   ⟨"Get Automated Tasks", "Get automated tasks.", api.other "Get Automated Tasks"⟩,
   ⟨"Get Zabbix Task Status", "Get task status.", api.other "Get Zabbix Task Status"⟩,
   ⟨"Get Notification Settings", "Get notification settings.", api.other "Get Notification Settings"⟩,
   ⟨"Get System Performance", "Retrieve system performance metrics like CPU load, memory, and disk usage.", wrapper_get_zabbix_status api⟩]

/-- ZabbixAssistant._match_tools (zabbix_assistant.py line 251): keep, in
registry order, the tools whose lowercased name occurs as a substring of the
lowercased classifier response. -/
def _match_tools (tools : List RTool) (tool_selection : String) : List RTool :=
  tools.filter fun tool => pyIn (strLower tool.name) (strLower tool_selection)

/-- ZabbixAssistant._run_tool (zabbix_assistant.py line 264): the two tools in
`parameter_tools` are called with parameters extracted from the query;
every other tool is called with no arguments. -/
def _run_tool (matched_tool : RTool) (user_query : String) : Except String String :=
  if matched_tool.name = "Get Hosts" then
    matched_tool.func (.hostArgs (_extract_limit user_query))
  else if matched_tool.name = "Get Triggers" then
    matched_tool.func (.triggerArgs (_extract_limit user_query) (_extract_severity user_query))
  else
    matched_tool.func .noArgs

/-- Outcomes of the three language-model calls a turn can make: the tool
classification (`_select_tool`), the few-shot interpretation of a tool
response (as a function of that response), and the generic chat completion
(`_default_response`). -/
structure TurnDeps where
  selectLLM : Except String String
  interpret : String → Except String String
  generic : Except String String

/-- The fixed top-level recovery message of chatbot_agent
(zabbix_assistant.py line 223). -/
def unexpectedErrorText : String :=
  "I encountered an unexpected error processing your request."

/-- The body of ZabbixAssistant.chatbot_agent inside its `try`
(zabbix_assistant.py lines 117 to 219): classify, substring-match, run the
first matched tool and interpret its response, or fall back to the generic
completion; any raised exception is the `.error` case. -/
def chatbot_agent_core (api : ZApiBehavior) (deps : TurnDeps) (user_query : String) :
    Except String (List Msg) :=
  match deps.selectLLM with
  | .error e => .error e
  | .ok tool_selection =>
    match _match_tools (initialize_zabbix_tools api) tool_selection with
    | [] =>
      match deps.generic with
      | .error e => .error e
      | .ok response => .ok [⟨Role.assistant, response⟩]
    | matched :: _ =>
      match _run_tool matched user_query with
      | .error e => .error e
      | .ok tool_response =>
        match deps.interpret tool_response with
        | .error e => .error e
        | .ok interpreted => .ok [⟨Role.assistant, interpreted⟩]

/-- ZabbixAssistant.chatbot_agent (zabbix_assistant.py line 113): the new
messages of the turn; the top-level `except` converts any failure into the
fixed unexpected-error assistant message. -/
def chatbot_agent (api : ZApiBehavior) (deps : TurnDeps) (user_query : String) : List Msg :=
  match chatbot_agent_core api deps user_query with
  | .ok msgs => msgs
  | .error _ => [⟨Role.assistant, unexpectedErrorText⟩]

/-- A fixed trivial collaborator environment, used to instantiate theorems at
concrete inputs. -/
def trivialApi : ZApiBehavior :=
  ⟨.ok [], fun _ => .ok [], .ok [], .ok "", fun _ => "", fun _ _ => .ok ""⟩

/-- The trivial environment with a failing `zabbix.user.get`. -/
def failUsersApi : ZApiBehavior :=
  ⟨.ok [], fun _ => .ok [], .error "connection refused", .ok "", fun _ => "", fun _ _ => .ok ""⟩

/-- Sample conversation used to instantiate the trimming theorem: a system
message followed by six conversation messages. -/
def sampleMessages : List Msg :=
  [⟨Role.system, "You are a helpful AI assistant specializing in Zabbix monitoring."⟩,
   ⟨Role.user, "hello"⟩,
   ⟨Role.assistant, "hi"⟩,
   ⟨Role.user, "list hosts"⟩,
   ⟨Role.assistant, "Host: web-server-01"⟩,
   ⟨Role.user, "list triggers"⟩,
   ⟨Role.assistant, "Trigger: High CPU Usage"⟩]

/-- The head of a filtered list is the first element satisfying the
predicate. -/
theorem head?_filter_eq_find? (p : RTool → Bool) :
    ∀ ts : List RTool, (ts.filter p).head? = ts.find? p := by
  intro ts
  induction ts with
  | nil => rfl
  | cons t rest ih =>
    by_cases h : p t
    · simp [List.filter_cons, List.find?_cons, h]
    · simp [List.filter_cons, List.find?_cons, h, ih]

/-- The severity loop returns the first vocabulary entry that occurs in the
query. -/
theorem severityLoop_eq_find? (query : String) :
    ∀ L : List (String × String),
      severityLoop query L = (L.find? fun sv => pyIn sv.1 query).map fun sv => [sv.2] := by
  intro L
  induction L with
  | nil => rfl
  | cons sv rest ih =>
    by_cases h : pyIn sv.1 query
    · simp [severityLoop, List.find?_cons, h]
    · simp [severityLoop, List.find?_cons, h, ih]

/-- A successful turn body yields a single assistant message: every `.ok`
branch of chatbot_agent_core is a singleton. -/
theorem chatbot_agent_core_ok (api : ZApiBehavior) (deps : TurnDeps) (q : String)
    (msgs : List Msg) (h : chatbot_agent_core api deps q = .ok msgs) :
    ∃ s, msgs = [⟨Role.assistant, s⟩] := by
  unfold chatbot_agent_core at h
  repeat' split at h
  all_goals cases h
  all_goals exact ⟨_, rfl⟩

/-- Every turn produces exactly one assistant message, whatever the
collaborators do: each path of chatbot_agent ends in a singleton. -/
theorem chatbot_agent_singleton (api : ZApiBehavior) (deps : TurnDeps) (q : String) :
    ∃ s, chatbot_agent api deps q = [⟨Role.assistant, s⟩] := by
  unfold chatbot_agent
  rcases hc : chatbot_agent_core api deps q with e | msgs
  · exact ⟨unexpectedErrorText, rfl⟩
  · obtain ⟨s, hs⟩ := chatbot_agent_core_ok api deps q msgs hc
    exact ⟨s, hs⟩

/-- C1: the spec end-to-end scenario for the query "disaster triggers". The
severity extractor does yield ["disaster"], and the classifier response
"Get Triggers" matches exactly the Get Triggers capability; but running that
capability raises TypeError, because the registry wrapper forwards the
keyword `limit` to ZabbixToolFunctions.get_triggers, whose parameters are
only page, page_size and severity_filter. The turn therefore ends with the
fixed unexpected-error assistant message instead of a formatted trigger page
and a synthesized narrative, for every API behavior and every interpretation
and generic model outcome. -/
theorem c1_disaster_triggers_turn (api : ZApiBehavior)
    (interpret : String → Except String String) (generic : Except String String) :
    _extract_severity "disaster triggers" = some ["disaster"]
    ∧ ((_match_tools (initialize_zabbix_tools api) "Get Triggers").map fun t =>
        _run_tool t "disaster triggers")
      = [.error "TypeError: get_triggers() got an unexpected keyword argument \x27limit\x27"]
    ∧ chatbot_agent api ⟨.ok "Get Triggers", interpret, generic⟩ "disaster triggers"
      = [⟨Role.assistant, unexpectedErrorText⟩] :=
  ⟨by decide, rfl, rfl⟩

/-- C2 counterexample: a turn in which the underlying monitoring-API call of
the selected capability (Get Users) raises, no exception propagates, and yet
the single assistant message does not contain "Error retrieving": the
get_users loop swallows the failure and returns the no-users text, and even a
synthesizer that echoes the capability output verbatim therefore produces a
message without that substring. -/
theorem c2_error_message_counterexample :
    chatbot_agent failUsersApi ⟨.ok "Get Users", fun s => .ok s, .ok ""⟩ "list users"
      = [⟨Role.assistant, ZabbixToolFunctions.noUsersText⟩]
    ∧ substrB "Error retrieving".data ZabbixToolFunctions.noUsersText.data = false :=
  ⟨rfl, by decide⟩

/-- C2 as amended: when a capability invocation raises, no exception escapes
the turn and the turn yields exactly one assistant message (the synthesizer
output); each retrieval method returns, on an API failure, a user-facing text
that begins with "Error retrieving" for every method except get_users, which
returns the fixed no-users text. -/
theorem c2_failure_handling_amended (api : ZApiBehavior) (deps : TurnDeps)
    (q arg e : String) :
    (chatbot_agent api deps q).length = 1
    ∧ ((chatbot_agent api deps q).all fun m => m.role == Role.assistant) = true
    ∧ ((methodApiFailureText arg).all fun p =>
        p.1 == "get_users" || leadsB "Error retrieving".data (p.2 e).data) = true
    ∧ ZabbixToolFunctions.get_users (.error e) = ZabbixToolFunctions.noUsersText := by
  obtain ⟨s, hs⟩ := chatbot_agent_singleton api deps q
  rw [hs]
  exact ⟨rfl, rfl, rfl, rfl⟩

/-- C3: the classifier response is matched case-insensitively as a substring
against every registered capability name; the first capability in registry
order among the matches is the one selected and executed, and with no match
the generic path is taken. In particular the response
"Get Triggers is the best match" matches exactly the capability named
"Get Triggers". -/
theorem c3_substring_matching_policy :
    (∀ api : ZApiBehavior,
      (_match_tools (initialize_zabbix_tools api) "Get Triggers is the best match").map RTool.name
        = ["Get Triggers"])
    ∧ (∀ (tools : List RTool) (sel : String),
        (_match_tools tools sel).head?
          = tools.find? fun t => pyIn (strLower t.name) (strLower sel))
    ∧ (∀ (api : ZApiBehavior) (deps : TurnDeps) (q sel resp interp : String) (t : RTool),
        deps.selectLLM = .ok sel →
        (_match_tools (initialize_zabbix_tools api) sel).head? = some t →
        _run_tool t q = .ok resp →
        deps.interpret resp = .ok interp →
        chatbot_agent api deps q = [⟨Role.assistant, interp⟩])
    ∧ (∀ (api : ZApiBehavior) (deps : TurnDeps) (q sel g : String),
        deps.selectLLM = .ok sel →
        _match_tools (initialize_zabbix_tools api) sel = [] →
        deps.generic = .ok g →
        chatbot_agent api deps q = [⟨Role.assistant, g⟩]) := by
  refine ⟨fun api => rfl, fun tools sel => head?_filter_eq_find? _ tools, ?_, ?_⟩
  · intro api deps q sel resp interp t h1 h2 h3 h4
    rcases hm : _match_tools (initialize_zabbix_tools api) sel with _ | ⟨t0, rest⟩
    · rw [hm] at h2
      exact absurd h2 (by simp)
    · rw [hm] at h2
      simp only [List.head?_cons, Option.some.injEq] at h2
      subst h2
      unfold chatbot_agent chatbot_agent_core
      rw [h1]
      dsimp only
      rw [hm]
      dsimp only
      rw [h3]
      dsimp only
      rw [h4]
  · intro api deps q sel g h1 h2 h3
    unfold chatbot_agent chatbot_agent_core
    rw [h1]
    dsimp only
    rw [h2]
    dsimp only
    rw [h3]

/-- C3 witness: the tool path and the generic path of the matching policy at
concrete inputs. -/
theorem c3_substring_matching_policy_witness :
    chatbot_agent trivialApi ⟨.ok "Get Users", fun s => .ok ("N: " ++ s), .ok "gen"⟩ "who"
      = [⟨Role.assistant, "N: " ++ ZabbixToolFunctions.noUsersText⟩]
    ∧ chatbot_agent trivialApi ⟨.ok "GENERAL", fun s => .ok s, .ok "gen"⟩ "who"
      = [⟨Role.assistant, "gen"⟩] :=
  ⟨c3_substring_matching_policy.2.2.1 trivialApi
      ⟨.ok "Get Users", fun s => .ok ("N: " ++ s), .ok "gen"⟩ "who" "Get Users"
      ZabbixToolFunctions.noUsersText ("N: " ++ ZabbixToolFunctions.noUsersText)
      ⟨"Get Users", "Retrieve a list of users from Zabbix.", wrapper_get_users trivialApi⟩
      rfl rfl rfl rfl,
   c3_substring_matching_policy.2.2.2 trivialApi
      ⟨.ok "GENERAL", fun s => .ok s, .ok "gen"⟩ "who" "GENERAL" "gen" rfl rfl rfl⟩

/-- C5: when the token-counting trimmer raises, the conversation-window
function does not raise and returns exactly the last five messages of the
sequence, that is, the tail suffix of length `min 5 n`; the system message is
kept only when it lies within that tail, since the result is exactly that
tail. -/
theorem c5_trim_fallback_last_five (trimmer : List Msg → Except String (List Msg))
    (messages : List Msg) (e : String) (h : trimmer messages = .error e) :
    _trim_conversation_messages trimmer messages = messages.drop (messages.length - 5)
    ∧ messages.take (messages.length - 5) ++ _trim_conversation_messages trimmer messages
        = messages
    ∧ (_trim_conversation_messages trimmer messages).length = min 5 messages.length := by
  have h1 : _trim_conversation_messages trimmer messages
      = messages.drop (messages.length - 5) := by
    unfold _trim_conversation_messages
    rw [h]
  refine ⟨h1, ?_, ?_⟩
  · rw [h1]
    exact List.take_append_drop _ _
  · rw [h1, List.length_drop]
    omega

/-- C5 witness: a failing estimator on a seven-message transcript falls back
to the last five messages, which here exclude the leading system message. -/
theorem c5_trim_fallback_last_five_witness :
    (fun _ : List Msg => (.error "tiktoken failure" : Except String (List Msg))) sampleMessages
        = .error "tiktoken failure"
    ∧ (_trim_conversation_messages (fun _ => .error "tiktoken failure") sampleMessages
          = sampleMessages.drop (sampleMessages.length - 5)
        ∧ sampleMessages.take (sampleMessages.length - 5)
            ++ _trim_conversation_messages (fun _ => .error "tiktoken failure") sampleMessages
            = sampleMessages
        ∧ (_trim_conversation_messages (fun _ => .error "tiktoken failure") sampleMessages).length
            = min 5 sampleMessages.length) :=
  ⟨rfl, c5_trim_fallback_last_five (fun _ => .error "tiktoken failure") sampleMessages
      "tiktoken failure" rfl⟩

/-- C6: parameter extraction is total by construction; the severity extractor
returns the first case-insensitive substring match in the fixed vocabulary
order; the query "show me 5 triggers with high severity" yields limit 5 and
severity ["high"], and "list hosts" yields neither. -/
theorem c6_parameter_extraction (q : String) :
    _extract_limit "show me 5 triggers with high severity" = some 5
    ∧ _extract_severity "show me 5 triggers with high severity" = some ["high"]
    ∧ _extract_limit "list hosts" = none
    ∧ _extract_severity "list hosts" = none
    ∧ _extract_severity q
        = (severity_map.find? fun sv => pyIn sv.1 (strLower q)).map fun sv => [sv.2] :=
  ⟨by decide, by decide, by decide, by decide, severityLoop_eq_find? (strLower q) severity_map⟩

/-- C7 counterexample: paginate_response does not clamp a non-positive page
size to 1: with page size 0 it fails with ZeroDivisionError, while with page
size 1 it succeeds, so the two behaviors differ and pagination can fail on a
non-positive page size. -/
theorem c7_no_clamp_counterexample :
    paginate_response ([1, 2, 3] : List Nat) 1 0 none
        = .error "ZeroDivisionError: integer division or modulo by zero"
    ∧ paginate_response ([1, 2, 3] : List Nat) 1 1 none = .ok ⟨"1", 3, 3, 1, 1⟩ :=
  ⟨rfl, rfl⟩

/-- C7 as amended: non-positive page sizes are not clamped. A page size of
zero always raises ZeroDivisionError, and a negative page size follows Python
floor-division and slice semantics instead of behaving like page size 1: on a
three-record list it reports total_pages minus one and returns the first two
records. -/
theorem c7_no_clamp_amended {α : Type} [ToString α] (data : List α) (page : Int) :
    paginate_response data page 0 none
        = .error "ZeroDivisionError: integer division or modulo by zero"
    ∧ paginate_response ([1, 2, 3] : List Nat) 1 (-1) none = .ok ⟨"1\n2", 3, -1, 1, -1⟩ :=
  ⟨rfl, rfl⟩

/-- C8: registry construction does not fail on a duplicate name: the shipped
catalog registers "Get System Performance" twice (for the method
get_system_performance and again for get_zabbix_status), so the constructed
41-entry catalog has a repeated capability name and no DuplicateCapability
error exists. -/
theorem c8_duplicate_capability_name :
    ((initialize_zabbix_tools trivialApi).map RTool.name).count "Get System Performance" = 2
    ∧ ¬ ((initialize_zabbix_tools trivialApi).map RTool.name).Nodup
    ∧ (initialize_zabbix_tools trivialApi).length = 41 :=
  ⟨by decide, by decide, by decide⟩

/-- C9 counterexample: when the classification model call fails, the turn does
not take the generic path: even with a generic completion available, the
assistant message is the fixed unexpected-error text and not the generic
output. -/
theorem c9_no_general_degrade_counterexample :
    chatbot_agent trivialApi ⟨.error "model call failed", fun s => .ok s, .ok "Hello!"⟩ "hi"
      = [⟨Role.assistant, unexpectedErrorText⟩]
    ∧ chatbot_agent trivialApi ⟨.error "model call failed", fun s => .ok s, .ok "Hello!"⟩ "hi"
      ≠ [⟨Role.assistant, "Hello!"⟩] :=
  ⟨rfl, by decide⟩

/-- C9 as amended: a failing classification call is caught by the top-level
handler of the turn, which produces the fixed unexpected-error assistant
message; the generic path runs only when classification succeeds and no
capability name matches. -/
theorem c9_selection_failure_amended (api : ZApiBehavior) (deps : TurnDeps)
    (q e : String) (h : deps.selectLLM = .error e) :
    chatbot_agent api deps q = [⟨Role.assistant, unexpectedErrorText⟩] := by
  unfold chatbot_agent chatbot_agent_core
  rw [h]

/-- C9 amended witness: the top-level recovery at a concrete failing
classifier. -/
theorem c9_selection_failure_amended_witness :
    (⟨.error "timeout", fun s => .ok s, .ok "generic"⟩ : TurnDeps).selectLLM = .error "timeout"
    ∧ chatbot_agent trivialApi ⟨.error "timeout", fun s => .ok s, .ok "generic"⟩ "hi"
        = [⟨Role.assistant, unexpectedErrorText⟩] :=
  ⟨rfl, c9_selection_failure_amended trivialApi
      ⟨.error "timeout", fun s => .ok s, .ok "generic"⟩ "hi" "timeout" rfl⟩

/-- Floor division of natural casts is natural division. -/
theorem fdiv_natCast (a b : Nat) : ((a : Int)).fdiv (b : Int) = ((a / b : Nat) : Int) := by
  rw [Int.fdiv_eq_ediv] <;> simp [Int.ofNat_ediv]

/-- Taking at most the length is the same as taking the requested amount. -/
theorem take_min_len (l : List α) (b : Nat) : l.take (min l.length b) = l.take b := by
  rcases le_total b l.length with h | h
  · rw [min_eq_right h]
  · rw [min_eq_left h, List.take_length, List.take_of_length_le h]

/-- Dropping at most the length from a prefix is the same as dropping the
requested amount. -/
theorem drop_min_len (l : List α) (b a : Nat) :
    (l.take b).drop (min l.length a) = (l.take b).drop a := by
  rcases le_total a l.length with h | h
  · rw [min_eq_right h]
  · rw [min_eq_left h, List.drop_eq_nil_of_le, List.drop_eq_nil_of_le]
    · calc (l.take b).length = min b l.length := List.length_take ..
        _ ≤ l.length := min_le_right _ _
        _ ≤ a := h
    · calc (l.take b).length = min b l.length := List.length_take ..
        _ ≤ l.length := min_le_right _ _

/-- A Python slice with nonnegative endpoints is take-then-drop. -/
theorem pySlice_natCast (l : List α) (a b : Nat) :
    pySlice l (a : Int) (b : Int) = (l.take b).drop a := by
  unfold pySlice pyIndex
  have ha : ¬ ((a : Int) < 0) := by omega
  have hb : ¬ ((b : Int) < 0) := by omega
  rw [if_neg hb, if_neg ha, Int.toNat_natCast, Int.toNat_natCast, take_min_len, drop_min_len]

/-- The page slice at a 1-indexed page over a positive page size, in natural
terms: drop the previous pages, take one page. -/
theorem pageSlice_natCast (data : List α) (i p : Nat) :
    pageSlice data ((i : Int) + 1) (p : Int) = (data.drop (i * p)).take p := by
  unfold pageSlice
  have h1 : (((i : Int) + 1) - 1) * (p : Int) = ((i * p : Nat) : Int) := by
    push_cast
    ring
  have h2 : ((i * p : Nat) : Int) + (p : Int) = ((i * p + p : Nat) : Int) := by
    push_cast
    ring
  rw [h1, h2, pySlice_natCast, List.drop_take]
  congr 1
  omega

/-- Concatenating the first k page slices of size p recovers the first k * p
records. -/
theorem flatten_slices (data : List α) (p : Nat) :
    ∀ k : Nat, ((List.range k).map fun i => (data.drop (i * p)).take p).flatten
      = data.take (k * p) := by
  intro k
  induction k with
  | zero => simp
  | succ k ih =>
    rw [List.range_succ, List.map_append, List.flatten_append, ih]
    simp only [List.map_cons, List.map_nil, List.flatten_cons, List.flatten_nil,
      List.append_nil]
    rw [← List.take_add]
    congr 1
    ring

/-- The ceiling division bound from below: the records fit in the reported
number of pages. -/
theorem le_ceilDiv_mul (n p : Nat) (hp : 1 ≤ p) : n ≤ ((n + p - 1) / p) * p := by
  have hdm := Nat.div_add_mod (n + p - 1) p
  have hmlt : (n + p - 1) % p < p := Nat.mod_lt _ (by omega)
  rw [Nat.mul_comm]
  set m := p * ((n + p - 1) / p) with hm
  omega

/-- The ceiling division bound from above: one page fewer would not fit. -/
theorem ceilDiv_mul_lt (n p : Nat) (hp : 1 ≤ p) : ((n + p - 1) / p) * p < n + p := by
  have hdm := Nat.div_add_mod (n + p - 1) p
  have hmlt : (n + p - 1) % p < p := Nat.mod_lt _ (by omega)
  rw [Nat.mul_comm]
  set m := p * ((n + p - 1) / p) with hm
  omega

/-- The code formula for total_pages is the rational ceiling of n / p. -/
theorem ceil_nat_div (n p : Nat) (hp : 1 ≤ p) :
    ⌈(n : ℚ) / (p : ℚ)⌉ = (((n + p - 1) / p : Nat) : Int) := by
  have hp0 : (0 : ℚ) < (p : ℚ) := by
    exact_mod_cast Nat.pos_of_ne_zero (by omega)
  set q : Nat := (n + p - 1) / p with hq
  rw [Int.ceil_eq_iff]
  constructor
  · rw [lt_div_iff₀ hp0]
    have hcast : ((q : ℚ)) * (p : ℚ) < (n : ℚ) + (p : ℚ) := by
      exact_mod_cast ceilDiv_mul_lt n p hp
    push_cast
    ring_nf
    ring_nf at hcast
    linarith
  · rw [div_le_iff₀ hp0]
    have hcast : (n : ℚ) ≤ ((q : ℚ)) * (p : ℚ) := by
      exact_mod_cast le_ceilDiv_mul n p hp
    push_cast
    linarith

/-- C4: for every page size p at least 1 and every record list,
paginate_response succeeds, reports total_pages equal to the ceiling of n / p,
and the page slices it takes for pages 1 through total_pages concatenate back
to exactly the input list, so they are disjoint index ranges that together
contain all n records, and their item counts sum to n. -/
theorem c4_pagination_partition {α : Type} [ToString α] (data : List α) (p : Nat)
    (hp : 1 ≤ p) :
    ∃ r : PageResult,
      paginate_response data 1 (p : Int) none = .ok r
      ∧ r.total_pages = ⌈(data.length : ℚ) / (p : ℚ)⌉
      ∧ ((List.range r.total_pages.toNat).map fun i : Nat =>
          pageSlice data ((i : Int) + 1) (p : Int)).flatten = data
      ∧ ((List.range r.total_pages.toNat).map fun i : Nat =>
          (pageSlice data ((i : Int) + 1) (p : Int)).length).sum = data.length := by
  have hp0 : (p : Int) ≠ 0 := by omega
  have hcast : (data.length : Int) + (p : Int) - 1 = ((data.length + p - 1 : Nat) : Int) := by
    omega
  have hok : paginate_response data 1 (p : Int) none
      = .ok ⟨String.intercalate "\n" ((pageSlice data 1 (p : Int)).map toString),
             (data.length : Int), (((data.length + p - 1) / p : Nat) : Int), 1, (p : Int)⟩ := by
    simp only [paginate_response]
    rw [if_neg hp0, hcast, fdiv_natCast]
  have hfl : ((List.range ((data.length + p - 1) / p)).map fun i =>
      (data.drop (i * p)).take p).flatten = data := by
    rw [flatten_slices]
    exact List.take_of_length_le (le_ceilDiv_mul data.length p hp)
  refine ⟨_, hok, ?_, ?_, ?_⟩
  · show (((data.length + p - 1) / p : Nat) : Int) = ⌈(data.length : ℚ) / (p : ℚ)⌉
    exact (ceil_nat_div data.length p hp).symm
  · show ((List.range ((((data.length + p - 1) / p : Nat) : Int)).toNat).map fun i : Nat =>
        pageSlice data ((i : Int) + 1) (p : Int)).flatten = data
    rw [Int.toNat_natCast]
    simp only [pageSlice_natCast]
    exact hfl
  · show ((List.range ((((data.length + p - 1) / p : Nat) : Int)).toNat).map fun i : Nat =>
        (pageSlice data ((i : Int) + 1) (p : Int)).length).sum = data.length
    rw [Int.toNat_natCast]
    simp only [pageSlice_natCast]
    have hlen := congrArg List.length hfl
    rw [List.length_flatten, List.map_map] at hlen
    simp only [Function.comp] at hlen
    exact hlen

/-- C4 witness: the partition property evaluated on a three-record list with
page size two. -/
theorem c4_pagination_partition_witness :
    (1 ≤ 2)
    ∧ ∃ r : PageResult,
      paginate_response ([10, 20, 30] : List Nat) 1 ((2 : Nat) : Int) none = .ok r
      ∧ r.total_pages = ⌈((([10, 20, 30] : List Nat).length) : ℚ) / (((2 : Nat)) : ℚ)⌉
      ∧ ((List.range r.total_pages.toNat).map fun i : Nat =>
          pageSlice ([10, 20, 30] : List Nat) ((i : Int) + 1) ((2 : Nat) : Int)).flatten
          = [10, 20, 30]
      ∧ ((List.range r.total_pages.toNat).map fun i : Nat =>
          (pageSlice ([10, 20, 30] : List Nat) ((i : Int) + 1) ((2 : Nat) : Int)).length).sum
          = ([10, 20, 30] : List Nat).length :=
  ⟨by norm_num, c4_pagination_partition [10, 20, 30] 2 (by norm_num)⟩

/-- C10: pagination of an empty record list with a positive page size reports
zero total items and zero total pages, an empty content string, and the
requested page as current page; through _paginate_and_format with a
capability formatter (which renders the empty slice as the empty string, as
the host and trigger formatters do), the default page 1 result is exactly the
footer "Page 1 of 0 (Total Items: 0)", whose current page exceeds the
reported total pages. -/
theorem c10_empty_list_pagination (p : Nat) (hp : 1 ≤ p) (page : Int)
    (f : List TriggerRec → String) (hf : f [] = "") :
    paginate_response ([] : List TriggerRec) page (p : Int) none
        = .ok ⟨"", 0, 0, page, (p : Int)⟩
    ∧ _paginate_and_format ([] : List TriggerRec) 1 (p : Int) f
        = .ok "\n\nPage 1 of 0 (Total Items: 0)"
    ∧ ZabbixToolFunctions._host_formatter [] true = ""
    ∧ ∀ ft : Int → String, ZabbixToolFunctions._trigger_formatter ft [] = "" := by
  have hp0 : (p : Int) ≠ 0 := by omega
  have hT : ((0 : Int) + (p : Int) - 1).fdiv (p : Int) = 0 := by
    have h1 : (0 : Int) + (p : Int) - 1 = ((p - 1 : Nat) : Int) := by omega
    have h2 : (p - 1) / p = 0 := Nat.div_eq_of_lt (by omega)
    rw [h1, fdiv_natCast, h2]
    rfl
  have hpagN : ∀ pg : Int,
      paginate_response ([] : List TriggerRec) pg (p : Int) none
        = .ok ⟨String.intercalate "\n"
                ((pageSlice ([] : List TriggerRec) pg (p : Int)).map toString),
               0, 0, pg, (p : Int)⟩ := by
    intro pg
    simp only [paginate_response]
    rw [if_neg hp0]
    simp only [List.length_nil, Nat.cast_zero, hT]
  have hpagS : ∀ pg : Int, ∀ g : List TriggerRec → String,
      paginate_response ([] : List TriggerRec) pg (p : Int) (some g)
        = .ok ⟨g (pageSlice ([] : List TriggerRec) pg (p : Int)), 0, 0, pg, (p : Int)⟩ := by
    intro pg g
    simp only [paginate_response]
    rw [if_neg hp0]
    simp only [List.length_nil, Nat.cast_zero, hT]
  have hslice : ∀ pg : Int, pageSlice ([] : List TriggerRec) pg (p : Int) = [] := by
    intro pg
    simp [pageSlice, pySlice]
  refine ⟨?_, ?_, rfl, fun ft => rfl⟩
  · rw [hpagN page]
    simp only [hslice, List.map_nil]
    rfl
  · unfold _paginate_and_format
    rw [hpagS 1 f]
    simp only [Except.map, hslice, hf]
    rfl

/-- C10 witness: empty-list pagination at the default page size 50 with a
formatter that renders the empty slice as the empty string. -/
theorem c10_empty_list_pagination_witness :
    (1 ≤ 50)
    ∧ ((fun _ : List TriggerRec => "") [] = "")
    ∧ (paginate_response ([] : List TriggerRec) 1 ((50 : Nat) : Int) none
          = .ok ⟨"", 0, 0, 1, ((50 : Nat) : Int)⟩
      ∧ _paginate_and_format ([] : List TriggerRec) 1 ((50 : Nat) : Int)
            (fun _ : List TriggerRec => "")
          = .ok "\n\nPage 1 of 0 (Total Items: 0)"
      ∧ ZabbixToolFunctions._host_formatter [] true = ""
      ∧ ∀ ft : Int → String, ZabbixToolFunctions._trigger_formatter ft [] = "") :=
  ⟨by norm_num, rfl,
   c10_empty_list_pagination 50 (by norm_num) 1 (fun _ : List TriggerRec => "") rfl⟩
